import Mathlib

/-!
Verification of the MQ-135 air-quality acquisition loop (AQI_code.py).

The source is a linear read-compute-transmit loop.  We shallowly embed the
pure computational pipeline and the control-flow skeleton of one loop cycle:

* `calculate_ppm`  : raw ADC sample -> (ppm, voltage), with the degenerate
  zero-voltage branch and the fatal `math.log10` domain error for a
  non-positive resistance ratio modelled as `Except.error`;
* `calculate_aqi`  : ppm -> AQI, linear map saturating at 500;
* `send_data_to_thingsboard` : the telemetry publisher, parametrised over the
  outcome of the HTTP POST (a status/text response, or a raised network
  exception);
* `run_cycle` / `loop_step` : one iteration of the main `while True` body,
  where any uncaught exception reaches the top-level handler and moves the
  process from `Running` to `Terminated`.

Python floats are modelled as exact rationals for the closed-form
voltage/resistance/ratio arithmetic and as reals for the transcendental
ppm formula (`math.pow` / `math.log10`).
-/

/-- Severity levels used by the logging calls in the source. -/
inductive LogLevel
| info
| warning
| error
deriving DecidableEq, Repr

/-- One emitted log line: a level and the static part of its message. -/
structure LogEntry where
  level : LogLevel
  msg : String
deriving DecidableEq, Repr

/-- `R0 = 10.0`, calibrated clean-air reference resistance. -/
def R0 : ℚ := 10.0

/-- `known_resistor_value = 10.0`, the load resistor. -/
def known_resistor_value : ℚ := 10.0

/-- `supply_voltage = 3.3`. -/
def supply_voltage : ℚ := 3.3

/-- Line 49 of the source: `voltage = (analog_value / 1023.0) * supply_voltage`. -/
def voltage_of (analog_value : ℚ) : ℚ :=
  (analog_value / 1023) * supply_voltage

/-- Line 55 of the source: `Rs = ((supply_voltage - voltage) / voltage) * known_resistor_value`. -/
def Rs_of (voltage : ℚ) : ℚ :=
  ((supply_voltage - voltage) / voltage) * known_resistor_value

/-- Line 56 of the source: `ratio = Rs / R0`. -/
def ratio_of (voltage : ℚ) : ℚ :=
  Rs_of voltage / R0

/-- Line 61 of the source: `PPM = math.pow(10, ((math.log10(ratio) - b) / m))`
with `m = -0.38` and `b = 1.2`. -/
noncomputable def ppm_formula (ratio : ℝ) : ℝ :=
  Real.rpow 10 ((Real.logb 10 ratio - 1.2) / (-0.38))

/-- `calculate_ppm(analog_value)`: returns `(PPM, voltage)`.  If the voltage is
zero it logs a warning and returns `(0, 0)`.  `math.log10` raises
`ValueError: math domain error` on a non-positive argument; since the source
does not guard the ratio, that branch is modelled as `Except.error`.  The
second component collects the log lines emitted before returning or raising. -/
noncomputable def calculate_ppm (analog_value : ℚ) :
    Except String (ℝ × ℚ) × List LogEntry :=
  let voltage := voltage_of analog_value
  if voltage = 0 then
    (Except.ok ((0 : ℝ), (0 : ℚ)),
      [⟨LogLevel.warning, "Voltage is zero, check sensor wiring."⟩])
  else
    let ratio := ratio_of voltage
    if ratio ≤ 0 then
      (Except.error "math domain error", [])
    else
      (Except.ok (ppm_formula (ratio : ℝ), voltage),
        [⟨LogLevel.info, "Calculated PPM"⟩])

/-- `calculate_aqi(ppm)`: linear rescaling of ppm into an AQI, returning the
fixed ceiling 500 whenever ppm exceeds `PPM_high`. -/
noncomputable def calculate_aqi (ppm : ℝ) : ℝ :=
  let AQI_low : ℝ := 0
  let AQI_high : ℝ := 50
  let PPM_low : ℝ := 0
  let PPM_high : ℝ := 500
  if ppm > PPM_high then 500
  else ((AQI_high - AQI_low) / (PPM_high - PPM_low)) * (ppm - PPM_low) + AQI_low

/-- Outcome of the `requests.post` call inside `send_data_to_thingsboard`:
either an HTTP response with a status code and body text, or a raised
network exception carrying a message. -/
inductive PostResult
| response (status : ℕ) (text : String)
| exn (msg : String)
deriving DecidableEq, Repr

/-- `send_data_to_thingsboard(data)`: on status 200 it logs success; on any
other status it logs an error with the response text; a network exception
raised by the POST is not caught and propagates to the caller. -/
def send_data_to_thingsboard (postResult : PostResult) :
    Except String (List LogEntry) :=
  match postResult with
  | PostResult.exn msg => Except.error msg
  | PostResult.response status text =>
    if status = 200 then
      Except.ok [⟨LogLevel.info, "Data sent successfully to ThingsBoard"⟩]
    else
      Except.ok [⟨LogLevel.error, "Error sending data to ThingsBoard: " ++ text⟩]

/-- The telemetry payload built in the main loop (lines 119-125): a flat
mapping of field name to numeric value, with exactly five entries. -/
noncomputable def build_payload (aqi predicted_aqi : ℝ) (analog_value voltage : ℚ)
    (ppm : ℝ) : List (String × ℝ) :=
  [("airQualityIndex", aqi),
   ("predictedAqi", predicted_aqi),
   ("mq135_analog_values", (analog_value : ℝ)),
   ("mq135_voltage", (voltage : ℝ)),
   ("ppm", ppm)]

/-- The environment of one loop iteration: the ADC reading returned by
`read_adc`, the model prediction returned by `predict_aqi_with_ai`, and the
outcome of the HTTP POST. -/
structure CycleEnv where
  analog_value : ℚ
  predicted_aqi : ℝ
  postResult : PostResult

/-- One iteration of the `while True` body (lines 109-132): sample, convert,
map to AQI, build the payload, publish.  An exception from any step escapes
the body (the loop has no per-cycle handler). -/
noncomputable def run_cycle (env : CycleEnv) : Except String (List (String × ℝ)) :=
  match (calculate_ppm env.analog_value).1 with
  | Except.error e => Except.error e
  | Except.ok (ppm, voltage) =>
    let aqi := calculate_aqi ppm
    let payload := build_payload aqi env.predicted_aqi env.analog_value voltage ppm
    match send_data_to_thingsboard env.postResult with
    | Except.error e => Except.error e
    | Except.ok _ => Except.ok payload

/-- The two states of the loop driver: after a cycle that raised no exception
the loop sleeps and runs again; an uncaught exception reaches the top-level
`except Exception` handler, which logs it and lets the process end. -/
inductive LoopState
| Running
| Terminated
deriving DecidableEq, Repr

/-- The state transition of one loop iteration under environment `env`. -/
noncomputable def loop_step (env : CycleEnv) : LoopState :=
  match run_cycle env with
  | Except.ok _ => LoopState.Running
  | Except.error _ => LoopState.Terminated

/-! ### Helper lemmas (shared) -/

/-- The line-49 voltage is nonnegative for a nonnegative sample. -/
lemma voltage_of_nonneg (a : ℚ) (ha : 0 ≤ a) : 0 ≤ voltage_of a := by
  unfold voltage_of supply_voltage
  positivity

/-- The line-49 voltage is at most the supply voltage for a sample at most 1023. -/
lemma voltage_of_le (a : ℚ) (ha : a ≤ 1023) : voltage_of a ≤ supply_voltage := by
  unfold voltage_of supply_voltage
  norm_num
  linarith

/-- The line-49 voltage is positive for a positive sample. -/
lemma voltage_of_pos (a : ℚ) (ha : 0 < a) : 0 < voltage_of a := by
  unfold voltage_of supply_voltage
  positivity

/-- The logarithmic-curve ppm is a power of 10, hence strictly positive. -/
lemma ppm_formula_pos (r : ℝ) : 0 < ppm_formula r := by
  unfold ppm_formula
  exact Real.rpow_pos_of_pos (by norm_num) _

/-- On nonnegative ppm, the AQI mapper stays within the hazard ceiling. -/
lemma calculate_aqi_mem (p : ℝ) (h : 0 ≤ p) :
    0 ≤ calculate_aqi p ∧ calculate_aqi p ≤ 500 := by
  unfold calculate_aqi
  dsimp only
  split_ifs with hgt
  · norm_num
  · push_neg at hgt
    constructor <;> nlinarith

/-! ### Claims -/

/-- Claim C1 (counterexample): the claim says every telemetry delivery
failure — non-200 response or network error — is recovered locally with the
loop continuing.  A network exception raised by the POST refutes it: it
escapes `send_data_to_thingsboard` to its caller, and the iteration ends in
`Terminated` (the top-level handler logs and exits the loop). -/
theorem network_error_not_recovered_counterexample :
    send_data_to_thingsboard (PostResult.exn "ConnectionError") =
      Except.error "ConnectionError" ∧
    loop_step ⟨512, (0 : ℝ), PostResult.exn "ConnectionError"⟩ =
      LoopState.Terminated := by
  refine ⟨rfl, ?_⟩
  unfold loop_step run_cycle
  simp [calculate_ppm, voltage_of, ratio_of, Rs_of, supply_voltage,
    known_resistor_value, R0, send_data_to_thingsboard]
  norm_num

/-- Claim C1 (amended): a non-200 HTTP response is recovered locally — the
publisher logs an error with the response body, raises nothing to its caller,
and the loop keeps running; but a network exception raised by the POST
propagates out of the publisher and terminates the loop via the top-level
handler. -/
theorem telemetry_failure_handling :
    (∀ (status : ℕ) (text : String), status ≠ 200 →
      send_data_to_thingsboard (PostResult.response status text) =
        Except.ok [⟨LogLevel.error, "Error sending data to ThingsBoard: " ++ text⟩]) ∧
    (∀ (env : CycleEnv) (status : ℕ) (text : String) (ppm : ℝ) (v : ℚ),
      env.postResult = PostResult.response status text → status ≠ 200 →
      (calculate_ppm env.analog_value).1 = Except.ok (ppm, v) →
      loop_step env = LoopState.Running) ∧
    (∀ (env : CycleEnv) (msg : String),
      env.postResult = PostResult.exn msg →
      loop_step env = LoopState.Terminated) := by
  refine ⟨?_, ?_, ?_⟩
  · intro status text hne
    simp [send_data_to_thingsboard, hne]
  · intro env status text ppm v hpost hne hok
    unfold loop_step run_cycle
    rw [hok]
    dsimp only
    rw [hpost]
    simp [send_data_to_thingsboard, hne]
  · intro env msg hpost
    unfold loop_step run_cycle
    cases hp : (calculate_ppm env.analog_value).1 with
    | error e => rfl
    | ok pv =>
      obtain ⟨ppm, voltage⟩ := pv
      dsimp only
      rw [hpost]
      rfl

/-- Claim C1 (witness): a simulated HTTP 500 is logged and the loop stays
`Running`; a simulated connection error leaves the loop `Terminated`. -/
theorem telemetry_failure_handling_witness :
    send_data_to_thingsboard (PostResult.response 500 "Internal Server Error") =
      Except.ok [⟨LogLevel.error,
        "Error sending data to ThingsBoard: " ++ "Internal Server Error"⟩] ∧
    loop_step ⟨0, 0, PostResult.response 500 "Internal Server Error"⟩ =
      LoopState.Running ∧
    loop_step ⟨0, 0, PostResult.exn "ConnectionError"⟩ = LoopState.Terminated :=
  ⟨telemetry_failure_handling.1 500 "Internal Server Error" (by decide),
   telemetry_failure_handling.2.1 ⟨0, 0, PostResult.response 500 "Internal Server Error"⟩
     500 "Internal Server Error" 0 0 rfl (by decide) (by simp [calculate_ppm, voltage_of]),
   telemetry_failure_handling.2.2 ⟨0, 0, PostResult.exn "ConnectionError"⟩
     "ConnectionError" rfl⟩

/-- Claim C2 (counterexample): the spec fixture quotes sensorResistance≈9.992
and ratio≈0.999 at rawSample = 512, but exact rational evaluation of the
source formulas gives a sensor resistance below 9.99 and a ratio below 0.9985,
so neither quoted decimal expansion is attained. -/
theorem fixture_512_digits_counterexample :
    Rs_of (voltage_of 512) < 999 / 100 ∧
    ratio_of (voltage_of 512) < 9985 / 10000 := by
  constructor
  · norm_num [Rs_of, voltage_of, supply_voltage, known_resistor_value]
  · norm_num [ratio_of, Rs_of, voltage_of, supply_voltage, known_resistor_value, R0]

/-- Claim C2 (amended): with the calibration constants of the source and
rawSample = 512, exact rational arithmetic gives voltage = 2816/1705 ≈ 1.6516,
sensorResistance = 28105/2816 ≈ 9.9805, ratio = 5621/5632 ≈ 0.99805, and the
returned ppm is exactly the closed-form value
10 ^ ((log10 ratio − 1.2) / (−0.38)) on that exact ratio. -/
theorem fixture_512_exact_intermediates :
    voltage_of 512 = 2816 / 1705 ∧
    (1651 : ℚ) / 1000 < voltage_of 512 ∧ voltage_of 512 < 1652 / 1000 ∧
    Rs_of (voltage_of 512) = 28105 / 2816 ∧
    (998 : ℚ) / 100 < Rs_of (voltage_of 512) ∧
    Rs_of (voltage_of 512) < 9981 / 1000 ∧
    ratio_of (voltage_of 512) = 5621 / 5632 ∧
    (998 : ℚ) / 1000 < ratio_of (voltage_of 512) ∧
    ratio_of (voltage_of 512) < 999 / 1000 ∧
    (calculate_ppm 512).1 =
      Except.ok (ppm_formula ((ratio_of (voltage_of 512) : ℚ) : ℝ),
        voltage_of 512) := by
  refine ⟨by norm_num [voltage_of, supply_voltage],
    by norm_num [voltage_of, supply_voltage],
    by norm_num [voltage_of, supply_voltage],
    by norm_num [Rs_of, voltage_of, supply_voltage, known_resistor_value],
    by norm_num [Rs_of, voltage_of, supply_voltage, known_resistor_value],
    by norm_num [Rs_of, voltage_of, supply_voltage, known_resistor_value],
    by norm_num [ratio_of, Rs_of, voltage_of, supply_voltage, known_resistor_value, R0],
    by norm_num [ratio_of, Rs_of, voltage_of, supply_voltage, known_resistor_value, R0],
    by norm_num [ratio_of, Rs_of, voltage_of, supply_voltage, known_resistor_value, R0],
    ?_⟩
  unfold calculate_ppm
  rw [if_neg (by norm_num [voltage_of, supply_voltage]),
    if_neg (by norm_num [ratio_of, Rs_of, voltage_of, supply_voltage,
      known_resistor_value, R0])]

/-- Claim C3: at rawSample = 1023 the computed sensor resistance and the
resistance ratio are exactly 0, the logarithm is undefined, and
`calculate_ppm` ends in the fatal `math domain error`: the error branch for a
non-positive ratio is reachable and `calculate_ppm` is not total on
[0, 1023]. -/
theorem ratio_nonpositive_reachable_fatal :
    Rs_of (voltage_of 1023) = 0 ∧
    ratio_of (voltage_of 1023) = 0 ∧
    (calculate_ppm 1023).1 = Except.error "math domain error" := by
  refine ⟨by norm_num [Rs_of, voltage_of, supply_voltage, known_resistor_value],
    by norm_num [ratio_of, Rs_of, voltage_of, supply_voltage, known_resistor_value, R0],
    ?_⟩
  simp [calculate_ppm, voltage_of, ratio_of, Rs_of, supply_voltage,
    known_resistor_value, R0]
  norm_num

/-- Claim C4: on every cycle whose sample is in [0, 1023] and on which
`calculate_ppm` does not abort, the analytic AQI lies in [0, 500], the
returned voltage lies in [0, supply_voltage], and the returned ppm is either
0 (degenerate branch) or strictly positive (a power of 10). -/
theorem aqi_voltage_cycle_invariant (a : ℚ) (ppm : ℝ) (v : ℚ)
    (h0 : 0 ≤ a) (h1 : a ≤ 1023)
    (hok : (calculate_ppm a).1 = Except.ok (ppm, v)) :
    (0 ≤ calculate_aqi ppm ∧ calculate_aqi ppm ≤ 500) ∧
    (0 ≤ v ∧ v ≤ supply_voltage) ∧ (ppm = 0 ∨ 0 < ppm) := by
  unfold calculate_ppm at hok
  by_cases hv : voltage_of a = 0
  · rw [if_pos hv] at hok
    simp only [Except.ok.injEq, Prod.mk.injEq] at hok
    obtain ⟨hp, hvv⟩ := hok
    subst hp; subst hvv
    refine ⟨calculate_aqi_mem 0 le_rfl, ⟨le_rfl, ?_⟩, Or.inl rfl⟩
    norm_num [supply_voltage]
  · rw [if_neg hv] at hok
    dsimp only at hok
    by_cases hr : ratio_of (voltage_of a) ≤ 0
    · rw [if_pos hr] at hok
      exact absurd hok (by simp)
    · rw [if_neg hr] at hok
      simp only [Except.ok.injEq, Prod.mk.injEq] at hok
      obtain ⟨hp, hvv⟩ := hok
      subst hp; subst hvv
      exact ⟨calculate_aqi_mem _ (ppm_formula_pos _).le,
        ⟨voltage_of_nonneg a h0, voltage_of_le a h1⟩,
        Or.inr (ppm_formula_pos _)⟩

/-- Claim C4 (witness): the invariant instantiated at the degenerate sample
rawSample = 0, whose cycle returns ppm = 0 and voltage = 0. -/
theorem aqi_voltage_cycle_invariant_witness :
    (0 ≤ calculate_aqi 0 ∧ calculate_aqi 0 ≤ 500) ∧
    (0 ≤ (0 : ℚ) ∧ (0 : ℚ) ≤ supply_voltage) ∧ ((0 : ℝ) = 0 ∨ 0 < (0 : ℝ)) :=
  aqi_voltage_cycle_invariant 0 0 0 (by norm_num) (by norm_num)
    (by simp [calculate_ppm, voltage_of])

/-- Claim C5: `calculate_aqi` is the linear interpolation through
(ppm = 0, aqi = 0) and (ppm = 500, aqi = 50) on its non-saturated domain —
in particular it maps 0 to 0 and 500 to 50 — and for every ppm strictly
above 500 it returns exactly the fixed ceiling 500 instead of extrapolating
the line. -/
theorem calculate_aqi_linear_saturating :
    calculate_aqi 0 = 0 ∧ calculate_aqi 500 = 50 ∧
    (∀ p : ℝ, ¬ p > 500 →
      calculate_aqi p = ((50 - 0) / (500 - 0)) * (p - 0) + 0) ∧
    (∀ p : ℝ, p > 500 → calculate_aqi p = 500) := by
  refine ⟨by norm_num [calculate_aqi], by norm_num [calculate_aqi], ?_, ?_⟩
  · intro p hp
    unfold calculate_aqi
    dsimp only
    rw [if_neg hp]
  · intro p hp
    unfold calculate_aqi
    dsimp only
    rw [if_pos hp]

/-- Claim C5 (witness): the interpolation formula at ppm = 100 and the
ceiling at ppm = 501. -/
theorem calculate_aqi_linear_saturating_witness :
    calculate_aqi 100 = ((50 - 0) / (500 - 0)) * ((100 : ℝ) - 0) + 0 ∧
    calculate_aqi 501 = 500 :=
  ⟨calculate_aqi_linear_saturating.2.2.1 100 (by norm_num),
   calculate_aqi_linear_saturating.2.2.2 501 (by norm_num)⟩

/-- Claim C6: the PPM → AQI mapping is monotonically non-decreasing on
[0, 500]. -/
theorem calculate_aqi_monotone (p1 p2 : ℝ)
    (h0 : 0 ≤ p1) (h12 : p1 ≤ p2) (h2 : p2 ≤ 500) :
    calculate_aqi p1 ≤ calculate_aqi p2 := by
  unfold calculate_aqi
  dsimp only
  rw [if_neg (by linarith), if_neg (by linarith)]
  nlinarith

/-- Claim C6 (witness): monotonicity instantiated at ppm values 100 and 400. -/
theorem calculate_aqi_monotone_witness :
    calculate_aqi 100 ≤ calculate_aqi 400 :=
  calculate_aqi_monotone 100 400 (by norm_num) (by norm_num) (by norm_num)

/-- Claim C7: `calculate_ppm 0` returns ppm = 0 and voltage = 0, raises no
exception, and emits the zero-voltage diagnostic warning: the division by
zero is avoided by the explicit guard. -/
theorem calculate_ppm_zero_sample_recovered :
    calculate_ppm 0 =
      (Except.ok ((0 : ℝ), (0 : ℚ)),
        [⟨LogLevel.warning, "Voltage is zero, check sensor wiring."⟩]) := by
  simp [calculate_ppm, voltage_of]

/-- Claim C8: for every sample in (0, 1023], the voltage computed on line 49
equals rawSample / 1023 × supplyVoltage and lies in (0, supplyVoltage]; and
whenever `calculate_ppm` returns, the voltage it returns is exactly that
value. -/
theorem voltage_formula_range (a : ℚ) (h0 : 0 < a) (h1 : a ≤ 1023) :
    voltage_of a = a / 1023 * supply_voltage ∧
    0 < voltage_of a ∧ voltage_of a ≤ supply_voltage ∧
    (∀ (ppm : ℝ) (v : ℚ),
      (calculate_ppm a).1 = Except.ok (ppm, v) → v = voltage_of a) := by
  refine ⟨rfl, voltage_of_pos a h0, voltage_of_le a h1, ?_⟩
  intro ppm v hok
  unfold calculate_ppm at hok
  rw [if_neg (voltage_of_pos a h0).ne'] at hok
  dsimp only at hok
  by_cases hr : ratio_of (voltage_of a) ≤ 0
  · rw [if_pos hr] at hok
    exact absurd hok (by simp)
  · rw [if_neg hr] at hok
    simp only [Except.ok.injEq, Prod.mk.injEq] at hok
    exact hok.2.symm

/-- Claim C8 (witness): the voltage formula and range at rawSample = 512. -/
theorem voltage_formula_range_witness :
    voltage_of 512 = 512 / 1023 * supply_voltage ∧
    0 < voltage_of 512 ∧ voltage_of 512 ≤ supply_voltage := by
  obtain ⟨h1, h2, h3, -⟩ := voltage_formula_range 512 (by norm_num) (by norm_num)
  exact ⟨h1, h2, h3⟩

/-- Claim C9: on every cycle that completes, the telemetry payload handed to
the publisher is a flat mapping with exactly the five documented keys, in
order — airQualityIndex, predictedAqi, mq135_analog_values, mq135_voltage,
ppm — each bound to a numeric (real) value by the type of the payload,
regardless of which branch produced the intermediate values. -/
theorem payload_five_numeric_keys (env : CycleEnv) (payload : List (String × ℝ))
    (h : run_cycle env = Except.ok payload) :
    payload.map Prod.fst =
      ["airQualityIndex", "predictedAqi", "mq135_analog_values",
       "mq135_voltage", "ppm"] := by
  unfold run_cycle at h
  cases hp : (calculate_ppm env.analog_value).1 with
  | error e => rw [hp] at h; exact absurd h (by simp)
  | ok pv =>
    rw [hp] at h
    obtain ⟨ppm, voltage⟩ := pv
    dsimp only at h
    cases hs : send_data_to_thingsboard env.postResult with
    | error e => rw [hs] at h; exact absurd h (by simp)
    | ok logs =>
      rw [hs] at h
      simp only [Except.ok.injEq] at h
      subst h
      rfl

/-- Claim C9 (witness): the five keys of the payload of a concrete successful
cycle (degenerate zero sample, HTTP 200). -/
theorem payload_five_numeric_keys_witness :
    (build_payload (calculate_aqi 0) 0 0 0 0).map Prod.fst =
      ["airQualityIndex", "predictedAqi", "mq135_analog_values",
       "mq135_voltage", "ppm"] :=
  payload_five_numeric_keys ⟨0, 0, PostResult.response 200 ""⟩
    (build_payload (calculate_aqi 0) 0 0 0 0)
    (by unfold run_cycle; simp [calculate_ppm, voltage_of, send_data_to_thingsboard])

/-- Claim C10: the range of `calculate_aqi` on nonnegative inputs is exactly
the union of [0, 50] and the single value 500 — so no input yields an AQI
strictly between 50 and 500 —
and the mapping jumps at ppm = 500: 500 itself maps to 50 while everything
strictly above maps to 500. -/
theorem calculate_aqi_range_gap :
    (∀ y : ℝ, (∃ p, 0 ≤ p ∧ calculate_aqi p = y) ↔
      ((0 ≤ y ∧ y ≤ 50) ∨ y = 500)) ∧
    calculate_aqi 500 = 50 ∧
    (∀ p : ℝ, 500 < p → calculate_aqi p = 500) := by
  have heval : ∀ p : ℝ, ¬ p > 500 → calculate_aqi p = p / 10 := by
    intro p hp
    unfold calculate_aqi
    dsimp only
    rw [if_neg hp]
    ring
  have hsat : ∀ p : ℝ, p > 500 → calculate_aqi p = 500 := by
    intro p hp
    unfold calculate_aqi
    dsimp only
    rw [if_pos hp]
  refine ⟨?_, by norm_num [calculate_aqi], hsat⟩
  intro y
  constructor
  · rintro ⟨p, hp0, rfl⟩
    by_cases hgt : p > 500
    · exact Or.inr (hsat p hgt)
    · left
      rw [heval p hgt]
      push_neg at hgt
      constructor <;> linarith
  · rintro (⟨hy0, hy50⟩ | rfl)
    · exact ⟨10 * y, by linarith,
        by rw [heval (10 * y) (by push_neg; linarith)]; ring⟩
    · exact ⟨501, by norm_num, hsat 501 (by norm_num)⟩

/-- Claim C10 (witness): the jump at the saturation boundary — 500 maps to
50, 501 maps to 500. -/
theorem calculate_aqi_range_gap_witness :
    calculate_aqi 500 = 50 ∧ calculate_aqi 501 = 500 :=
  ⟨calculate_aqi_range_gap.2.1, calculate_aqi_range_gap.2.2 501 (by norm_num)⟩
